import Mathlib

/-!
# PlateDetectorFilterImpl.hpp

A verification development for the single source file of the repository,
`src/server/implementation/objects/PlateDetectorFilterImpl.hpp`.

The header contains declarations only.  The first part of this file is a
line-by-line table of those declarations (one row per declaration of the
header, in source order).  The second part is the object state that the two
private data members give rise to.  The third part models the member
functions whose bodies live outside the header.
-/

namespace kurento.module.platedetector

/-! ## Part 1: the declarations of the header -/

/-- Access sections of a C++ class (`public:`, `protected:`, `private:`);
`none` is used for declarations at namespace scope. -/
inductive Access
  | none
  | publicSection
  | protectedSection
  | privateSection
  deriving DecidableEq, Repr

/-- The C++ types that occur in the header. -/
inductive CType
  | void
  | bool
  | float
  | gulong
  | named (n : String)
  | ptr (t : CType)
  | ref (t : CType)
  | constRef (t : CType)
  | sharedPtr (t : CType)
  | sigcSignal (ret : CType) (arg : CType)
  deriving DecidableEq, Repr

/-- Kinds of declaration that occur in the header. -/
inductive DeclKind
  | classForward
  | classDefinition
  | constructor
  | destructor
  | function
  | dataMember
  | nestedClass
  deriving DecidableEq, Repr

/-- Default member initialisers that occur in the header (only `= NULL`). -/
inductive Initialiser
  | null
  deriving DecidableEq, Repr

/-- One declaration of the header.  `scope` is the enclosing namespace or
class, `type` is the return type of a function and the type of a data member,
`body` is the list of statements of a function defined in the header and
`Option.none` for a function that is only declared (terminated by `;`). -/
structure Declaration where
  line : Nat
  scope : String
  access : Access
  kind : DeclKind
  name : String
  type : CType
  params : List (String × CType)
  isVirtual : Bool
  isStatic : Bool
  initialiser : Option Initialiser
  body : Option (List String)
  deriving DecidableEq, Repr

/-- The class name, as a scope. -/
def className : String := "kurento::module::platedetector::PlateDetectorFilterImpl"

/-- The scope of the nested class. -/
def nestedClassName : String :=
  "kurento::module::platedetector::PlateDetectorFilterImpl::StaticConstructor"

/-- Line 17: `class PlateDetectorFilterImpl;` -/
def decl_forward_PlateDetectorFilterImpl : Declaration :=
  { line := 17, scope := "kurento::module::platedetector", access := Access.none,
    kind := DeclKind.classForward, name := "PlateDetectorFilterImpl",
    type := CType.named "PlateDetectorFilterImpl", params := [],
    isVirtual := false, isStatic := false, initialiser := Option.none, body := Option.none }

/-- Lines 24-26: `void Serialize (std::shared_ptr<...PlateDetectorFilterImpl> &object,
JsonSerializer &serializer);` -/
def decl_free_Serialize : Declaration :=
  { line := 24, scope := "kurento", access := Access.none,
    kind := DeclKind.function, name := "Serialize", type := CType.void,
    params := [("object", CType.ref (CType.sharedPtr (CType.named "PlateDetectorFilterImpl"))),
               ("serializer", CType.ref (CType.named "JsonSerializer"))],
    isVirtual := false, isStatic := false, initialiser := Option.none, body := Option.none }

/-- Line 31: `class MediaPipelineImpl;` -/
def decl_forward_MediaPipelineImpl : Declaration :=
  { line := 31, scope := "kurento", access := Access.none,
    kind := DeclKind.classForward, name := "MediaPipelineImpl",
    type := CType.named "MediaPipelineImpl", params := [],
    isVirtual := false, isStatic := false, initialiser := Option.none, body := Option.none }

/-- Lines 41-82: `class PlateDetectorFilterImpl : public FilterImpl,
public virtual PlateDetectorFilter { ... };` -/
def decl_class_PlateDetectorFilterImpl : Declaration :=
  { line := 41, scope := "kurento::module::platedetector", access := Access.none,
    kind := DeclKind.classDefinition, name := "PlateDetectorFilterImpl",
    type := CType.named "PlateDetectorFilterImpl", params := [],
    isVirtual := false, isStatic := false, initialiser := Option.none, body := Option.none }

/-- Lines 47-48: `PlateDetectorFilterImpl (const boost::property_tree::ptree &config,
std::shared_ptr<MediaPipeline> mediaPipeline);` -/
def decl_constructor : Declaration :=
  { line := 47, scope := className, access := Access.publicSection,
    kind := DeclKind.constructor, name := "PlateDetectorFilterImpl", type := CType.void,
    params := [("config", CType.constRef (CType.named "boost::property_tree::ptree")),
               ("mediaPipeline", CType.sharedPtr (CType.named "MediaPipeline"))],
    isVirtual := false, isStatic := false, initialiser := Option.none, body := Option.none }

/-- Line 50: `virtual ~PlateDetectorFilterImpl ();` -/
def decl_destructor : Declaration :=
  { line := 50, scope := className, access := Access.publicSection,
    kind := DeclKind.destructor, name := "~PlateDetectorFilterImpl", type := CType.void,
    params := [],
    isVirtual := true, isStatic := false, initialiser := Option.none, body := Option.none }

/-- Line 52: `void setPlateWidthPercentage (float plateWidthPercentage);` -/
def decl_setPlateWidthPercentage : Declaration :=
  { line := 52, scope := className, access := Access.publicSection,
    kind := DeclKind.function, name := "setPlateWidthPercentage", type := CType.void,
    params := [("plateWidthPercentage", CType.float)],
    isVirtual := false, isStatic := false, initialiser := Option.none, body := Option.none }

/-- Lines 55-56: `virtual bool connect (const std::string &eventType,
std::shared_ptr<EventHandler> handler);` -/
def decl_connect : Declaration :=
  { line := 55, scope := className, access := Access.publicSection,
    kind := DeclKind.function, name := "connect", type := CType.bool,
    params := [("eventType", CType.constRef (CType.named "std::string")),
               ("handler", CType.sharedPtr (CType.named "EventHandler"))],
    isVirtual := true, isStatic := false, initialiser := Option.none, body := Option.none }

/-- Line 58: `sigc::signal<void, PlateDetected> signalPlateDetected;` -/
def decl_signalPlateDetected : Declaration :=
  { line := 58, scope := className, access := Access.publicSection,
    kind := DeclKind.dataMember, name := "signalPlateDetected",
    type := CType.sigcSignal CType.void (CType.named "PlateDetected"), params := [],
    isVirtual := false, isStatic := false, initialiser := Option.none, body := Option.none }

/-- Lines 59-61: `virtual void invoke (std::shared_ptr<MediaObjectImpl> obj,
const std::string &methodName, const Json::Value &params, Json::Value &response);` -/
def decl_invoke : Declaration :=
  { line := 59, scope := className, access := Access.publicSection,
    kind := DeclKind.function, name := "invoke", type := CType.void,
    params := [("obj", CType.sharedPtr (CType.named "MediaObjectImpl")),
               ("methodName", CType.constRef (CType.named "std::string")),
               ("params", CType.constRef (CType.named "Json::Value")),
               ("response", CType.ref (CType.named "Json::Value"))],
    isVirtual := true, isStatic := false, initialiser := Option.none, body := Option.none }

/-- Line 63: `virtual void Serialize (JsonSerializer &serializer);` -/
def decl_Serialize : Declaration :=
  { line := 63, scope := className, access := Access.publicSection,
    kind := DeclKind.function, name := "Serialize", type := CType.void,
    params := [("serializer", CType.ref (CType.named "JsonSerializer"))],
    isVirtual := true, isStatic := false, initialiser := Option.none, body := Option.none }

/-- Line 66: `virtual void postConstructor ();` -/
def decl_postConstructor : Declaration :=
  { line := 66, scope := className, access := Access.protectedSection,
    kind := DeclKind.function, name := "postConstructor", type := CType.void,
    params := [],
    isVirtual := true, isStatic := false, initialiser := Option.none, body := Option.none }

/-- Line 70: `gulong bus_handler_id;` -/
def decl_bus_handler_id : Declaration :=
  { line := 70, scope := className, access := Access.privateSection,
    kind := DeclKind.dataMember, name := "bus_handler_id", type := CType.gulong,
    params := [],
    isVirtual := false, isStatic := false, initialiser := Option.none, body := Option.none }

/-- Line 71: `GstElement *plateDetector = NULL;` -/
def decl_plateDetector : Declaration :=
  { line := 71, scope := className, access := Access.privateSection,
    kind := DeclKind.dataMember, name := "plateDetector",
    type := CType.ptr (CType.named "GstElement"), params := [],
    isVirtual := false, isStatic := false, initialiser := some Initialiser.null,
    body := Option.none }

/-- Line 72: `void busMessage (GstMessage *message);` -/
def decl_busMessage : Declaration :=
  { line := 72, scope := className, access := Access.privateSection,
    kind := DeclKind.function, name := "busMessage", type := CType.void,
    params := [("message", CType.ptr (CType.named "GstMessage"))],
    isVirtual := false, isStatic := false, initialiser := Option.none, body := Option.none }

/-- Lines 74-78: `class StaticConstructor { ... };` -/
def decl_class_StaticConstructor : Declaration :=
  { line := 74, scope := className, access := Access.privateSection,
    kind := DeclKind.nestedClass, name := "StaticConstructor",
    type := CType.named "StaticConstructor", params := [],
    isVirtual := false, isStatic := false, initialiser := Option.none, body := Option.none }

/-- Line 77: `StaticConstructor();` in the public section of the nested class. -/
def decl_StaticConstructor : Declaration :=
  { line := 77, scope := nestedClassName, access := Access.publicSection,
    kind := DeclKind.constructor, name := "StaticConstructor", type := CType.void,
    params := [],
    isVirtual := false, isStatic := false, initialiser := Option.none, body := Option.none }

/-- Line 80: `static StaticConstructor staticConstructor;` -/
def decl_staticConstructor : Declaration :=
  { line := 80, scope := className, access := Access.privateSection,
    kind := DeclKind.dataMember, name := "staticConstructor",
    type := CType.named "StaticConstructor", params := [],
    isVirtual := false, isStatic := true, initialiser := Option.none, body := Option.none }

/-- Every declaration of the header, in source order. -/
def headerDeclarations : List Declaration :=
  [ decl_forward_PlateDetectorFilterImpl,
    decl_free_Serialize,
    decl_forward_MediaPipelineImpl,
    decl_class_PlateDetectorFilterImpl,
    decl_constructor,
    decl_destructor,
    decl_setPlateWidthPercentage,
    decl_connect,
    decl_signalPlateDetected,
    decl_invoke,
    decl_Serialize,
    decl_postConstructor,
    decl_bus_handler_id,
    decl_plateDetector,
    decl_busMessage,
    decl_class_StaticConstructor,
    decl_StaticConstructor,
    decl_staticConstructor ]

/-- A declaration that declares a function (constructors and destructors
included). -/
def Declaration.isFunction (d : Declaration) : Bool :=
  d.kind == DeclKind.constructor || d.kind == DeclKind.destructor || d.kind == DeclKind.function

/-- The scope-qualified name of a declaration. -/
def Declaration.qualifiedName (d : Declaration) : String :=
  d.scope ++ "::" ++ d.name

/-- The members the class `PlateDetectorFilterImpl` declares in its
`public:` section, in source order. -/
def publicMembers : List Declaration :=
  headerDeclarations.filter
    (fun d => d.scope == className && d.access == Access.publicSection)

/-- The generic hooks of the host framework ("Next methods are automatically
implemented by code generator", line 54, and the names the spec lists). -/
def Declaration.isGenericHook (d : Declaration) : Bool :=
  d.kind == DeclKind.function &&
    (d.name == "connect" || d.name == "invoke" || d.name == "Serialize")

/-- A public member that is a constructor, the destructor or a generic hook. -/
def Declaration.isBoilerplate (d : Declaration) : Bool :=
  d.kind == DeclKind.constructor || d.kind == DeclKind.destructor || d.isGenericHook

/-! ## Part 2: the object state given by the private data members -/

/-- The null pointer constant `NULL` of line 71. -/
def NULL : Nat := 0

/-- Number of values of a `gulong` (an `unsigned long`, 64 bits wide on the
LP64 platforms the media server is built for). -/
def gulongRange : Nat := 2 ^ 64

/-- The private non-static data members of an object (lines 70-71):
`gulong bus_handler_id;` and `GstElement *plateDetector = NULL;`.  A pointer
is an address, `NULL` being address 0. -/
structure PlateDetectorFilterImpl where
  bus_handler_id : Nat
  plateDetector : Nat
  deriving DecidableEq, Repr

/-- The value a data member has before the constructor body runs: the value
of its default member initialiser when the declaration has one, and otherwise
whatever the storage of the member happens to hold (`indeterminate`, read at
the member name and reduced to the range of a machine word). -/
def initialValue (d : Declaration) (indeterminate : String → Nat) : Nat :=
  match d.initialiser with
  | some Initialiser.null => NULL
  | Option.none => indeterminate d.name % gulongRange

/-- The state of the private data members before the constructor body runs,
as the declarations of lines 70-71 determine it. -/
def initialState (indeterminate : String → Nat) : PlateDetectorFilterImpl :=
  { bus_handler_id := initialValue decl_bus_handler_id indeterminate,
    plateDetector := initialValue decl_plateDetector indeterminate }

/-- A C `float`, kept as its 32-bit pattern; the header does no arithmetic on
it, the value is only passed on. -/
structure CFloat where
  bits : Nat
  deriving DecidableEq, Repr

/-- A value of a GObject property. -/
inductive GValue
  | float (x : CFloat)
  | int (i : Int)
  | string (s : String)
  deriving DecidableEq, Repr

/-- A live GStreamer element: its property table. -/
structure GstElement where
  props : List (String × GValue)
  deriving DecidableEq, Repr

/-- The part of the GStreamer runtime the object refers to: the live elements
by address and the ids of the handlers connected to the pipeline bus. -/
structure World where
  elements : List (Nat × GstElement)
  busHandlers : List Nat
  deriving DecidableEq, Repr

/-- Look up the live element at an address. -/
def elementAt (a : Nat) : List (Nat × GstElement) → Option GstElement
  | [] => Option.none
  | (b, e) :: rest => if b = a then some e else elementAt a rest

/-- The element handle is `NULL` or points to a live element. -/
def plateDetectorNullOrValid (w : World) (o : PlateDetectorFilterImpl) : Prop :=
  o.plateDetector = NULL ∨ (elementAt o.plateDetector w.elements).isSome = true

/-- The bus handler id is 0 (no handler) or the id of a connected handler. -/
def busHandlerNullOrValid (w : World) (o : PlateDetectorFilterImpl) : Prop :=
  o.bus_handler_id = 0 ∨ o.bus_handler_id ∈ w.busHandlers

instance (w : World) (o : PlateDetectorFilterImpl) : Decidable (plateDetectorNullOrValid w o) := by
  unfold plateDetectorNullOrValid; infer_instance

instance (w : World) (o : PlateDetectorFilterImpl) : Decidable (busHandlerNullOrValid w o) := by
  unfold busHandlerNullOrValid; infer_instance

/-! ## Part 3: the member functions defined outside the header

The bodies of `setPlateWidthPercentage`, `busMessage` and `invoke` are in a
translation unit that is not part of the sources; only their declarations
(lines 52, 72 and 59-61) are.  They are modelled here from the specification
text. -/

/-- Write a property of an element: the entry of that name is replaced, or
added when there is none. -/
def setProperty (name : String) (v : GValue) : List (String × GValue) → List (String × GValue)
  | [] => [(name, v)]
  | (k, w) :: rest => if k = name then (name, v) :: rest else (k, w) :: setProperty name v rest

/-- The effect of `g_object_set (object, name, v, NULL)` on the live elements:
the element at address `object` gets property `name` written, every other
element is left alone. -/
def g_object_set (object : Nat) (name : String) (v : GValue) :
    List (Nat × GstElement) → List (Nat × GstElement)
  | [] => []
  | (a, e) :: rest =>
      (a, if a = object then { props := setProperty name v e.props } else e)
        :: g_object_set object name v rest

/-- A GStreamer bus message: its message type and the data it carries. -/
structure GstMessage where
  type : String
  data : String
  deriving DecidableEq, Repr

/-- Modelled from the spec: the event class `PlateDetected` carried by
`signalPlateDetected` (line 58); the class is declared in a header that is not
part of the sources.  The spec says a bus message is "relayed into a single
typed signal": an event is built from the bus message it relays. -/
structure PlateDetected where
  message : GstMessage
  deriving DecidableEq, Repr

/-- Names that the translation unit outside the sources fixes and that neither
the header nor the specification gives: the name of the float property of the
element, and the one bus message type that is relayed. -/
structure Bindings where
  widthProperty : String
  plateMessageType : String
  deriving DecidableEq, Repr

/-- An object together with what it acts on: its private data members, the
GStreamer runtime, and the emissions of its public signal member
`signalPlateDetected` (line 58), oldest first. -/
structure System where
  obj : PlateDetectorFilterImpl
  world : World
  emitted : List PlateDetected
  deriving DecidableEq, Repr

/-- Modelled from the spec: the body of
`PlateDetectorFilterImpl::setPlateWidthPercentage` (declared on line 52,
defined outside the sources).  The spec says the class is to "set one float
property" of the element it wraps: the argument is written to the float
property of the element behind the `plateDetector` handle. -/
def setPlateWidthPercentage (B : Bindings) (plateWidthPercentage : CFloat) (s : System) : System :=
  { obj := s.obj,
    world :=
      { elements :=
          g_object_set s.obj.plateDetector B.widthProperty
            (GValue.float plateWidthPercentage) s.world.elements,
        busHandlers := s.world.busHandlers },
    emitted := s.emitted }

/-- Modelled from the spec: the body of `PlateDetectorFilterImpl::busMessage`
(declared on line 72, defined outside the sources).  The spec says the class
"forwards bus messages to an event signal" and is to "relay one message type
as one signal": a message of the relayed type is emitted on
`signalPlateDetected` as a `PlateDetected` event, any other message is
dropped. -/
def busMessage (B : Bindings) (message : GstMessage) (s : System) : System :=
  if message.type = B.plateMessageType then
    { s with emitted := s.emitted ++ [PlateDetected.mk message] }
  else s

/-- A `Json::Value`, as far as the method dispatch reads it. -/
inductive JsonValue
  | null
  | real (x : CFloat)
  | string (s : String)
  | object (members : List (String × JsonValue))

/-- The member `key` of a JSON object. -/
def JsonValue.member (key : String) : JsonValue → Option JsonValue
  | JsonValue.object members => members.lookup key
  | _ => Option.none

/-- Modelled from the spec: the body of `PlateDetectorFilterImpl::invoke`
(declared on lines 59-61, defined outside the sources).  The spec says the
class "exposes a setter through the host's generic method-dispatch
mechanism": the method name of the setter dispatches to
`setPlateWidthPercentage` with the float found in `params` under the name of
the setter's parameter (line 52); a call without that float fails; every
other method name is handed to the dispatch of the base class, `baseInvoke`.
The result is the object after the call and the response. -/
def invoke (B : Bindings)
    (baseInvoke : System → String → JsonValue → JsonValue → Except String (System × JsonValue))
    (obj : System) (methodName : String) (params : JsonValue) (response : JsonValue) :
    Except String (System × JsonValue) :=
  if methodName = decl_setPlateWidthPercentage.name then
    match params.member "plateWidthPercentage" with
    | some (JsonValue.real x) => Except.ok (setPlateWidthPercentage B x obj, response)
    | _ => Except.error "plateWidthPercentage: a float is expected"
  else baseInvoke obj methodName params response

/-! ## Lemmas on the property tables -/

/-- For a list of handler ids shorter than the range of `gulong` minus one,
some non-zero `gulong` value is not in the list. -/
theorem exists_gulong_not_mem (l : List Nat) (hl : l.length + 1 < gulongRange) :
    ∃ v, v < gulongRange ∧ v ≠ 0 ∧ v ∉ l := by
  by_contra hno
  have hsub : Finset.Icc 1 (l.length + 1) ⊆ l.toFinset := by
    intro v hv
    rw [Finset.mem_Icc] at hv
    rw [List.mem_toFinset]
    by_contra hmem
    exact hno ⟨v, by omega, by omega, hmem⟩
  have h1 : l.toFinset.card ≤ l.length := List.toFinset_card_le l
  have h2 : (Finset.Icc 1 (l.length + 1)).card = l.length + 1 := by simp
  have h3 := Finset.card_le_card hsub
  omega

/-! ## Concrete inputs -/

/-- Example names for the property and the relayed message type. -/
def exampleBindings : Bindings :=
  { widthProperty := "plate-width-percentage", plateMessageType := "plate-detected" }

/-- An element with two properties. -/
def exampleElement : GstElement :=
  { props := [("plate-width-percentage", GValue.float (CFloat.mk 0)), ("name", GValue.string "pd0")] }

/-- An object whose handle points to `exampleElement`, next to a second
element. -/
def exampleSystem : System :=
  { obj := { bus_handler_id := 7, plateDetector := 4096 },
    world := { elements := [(4096, exampleElement), (8192, { props := [("name", GValue.string "x")] })],
               busHandlers := [7] },
    emitted := [] }

/-- The bit pattern of the float `0.5f`. -/
def exampleFloat : CFloat := CFloat.mk 0x3f000000

/-- Parameters of a call of the setter through the dispatch. -/
def exampleParams : JsonValue :=
  JsonValue.object [("plateWidthPercentage", JsonValue.real exampleFloat)]

/-- A base-class dispatch that knows no method. -/
def exampleBaseInvoke (_obj : System) (methodName : String) (_params _response : JsonValue) :
    Except String (System × JsonValue) :=
  Except.error ("method not found: " ++ methodName)

/-- A bus message of the relayed type. -/
def examplePlateMessage : GstMessage := { type := "plate-detected", data := "1234ABC" }

/-- A bus message of another type. -/
def exampleOtherMessage : GstMessage := { type := "eos", data := "" }

/-! ## The claims -/

/-- C2: `busMessage` relays one message type as one signal: on a bus message
of the relayed type the emissions of `signalPlateDetected` grow by exactly one
`PlateDetected` event, built from that message; on a bus message of any other
type nothing is emitted; in both cases nothing else changes. -/
theorem busMessage_relays_one_message_type (B : Bindings) (message : GstMessage) (s : System) :
    (message.type = B.plateMessageType →
        (busMessage B message s).emitted = s.emitted ++ [PlateDetected.mk message] ∧
        (busMessage B message s).emitted.length = s.emitted.length + 1) ∧
    (message.type ≠ B.plateMessageType → (busMessage B message s).emitted = s.emitted) ∧
    (busMessage B message s).obj = s.obj ∧
    (busMessage B message s).world = s.world := by
  by_cases hty : message.type = B.plateMessageType
  · simp [busMessage, hty]
  · simp [busMessage, hty]

/-- C3: for every object and every `params` that carry a float under
`plateWidthPercentage`, `invoke` with the method name of the setter succeeds
and leaves the object exactly as `setPlateWidthPercentage` with that float
does, whatever the dispatch of the base class is. -/
theorem invoke_setter_same_as_setPlateWidthPercentage (B : Bindings)
    (baseInvoke : System → String → JsonValue → JsonValue → Except String (System × JsonValue))
    (obj : System) (params response : JsonValue) (x : CFloat)
    (h : params.member "plateWidthPercentage" = some (JsonValue.real x)) :
    ∃ r, invoke B baseInvoke obj "setPlateWidthPercentage" params response
      = Except.ok (setPlateWidthPercentage B x obj, r) := by
  refine ⟨response, ?_⟩
  have hname : decl_setPlateWidthPercentage.name = "setPlateWidthPercentage" := rfl
  simp [invoke, hname, h]

/-- Witness of C3 on `exampleSystem` with `exampleParams`. -/
theorem invoke_setter_same_as_setPlateWidthPercentage_witness :
    exampleParams.member "plateWidthPercentage" = some (JsonValue.real exampleFloat) ∧
    ∃ r, invoke exampleBindings exampleBaseInvoke exampleSystem "setPlateWidthPercentage"
        exampleParams JsonValue.null
      = Except.ok (setPlateWidthPercentage exampleBindings exampleFloat exampleSystem, r) :=
  ⟨by simp [exampleParams, JsonValue.member, List.lookup],
   invoke_setter_same_as_setPlateWidthPercentage exampleBindings exampleBaseInvoke exampleSystem
     exampleParams JsonValue.null exampleFloat
     (by simp [exampleParams, JsonValue.member, List.lookup])⟩

/-- Witness of C2: the relayed message is emitted once on an object that has
emitted nothing, and the other message is dropped. -/
theorem busMessage_relays_one_message_type_witness :
    (busMessage exampleBindings examplePlateMessage exampleSystem).emitted
        = [PlateDetected.mk examplePlateMessage] ∧
    (busMessage exampleBindings exampleOtherMessage exampleSystem).emitted = [] :=
  ⟨((busMessage_relays_one_message_type exampleBindings examplePlateMessage exampleSystem).1
      (by decide)).1,
   (busMessage_relays_one_message_type exampleBindings exampleOtherMessage exampleSystem).2.1
      (by decide)⟩

/-- C5: the public section of `PlateDetectorFilterImpl` declares, in order,
the constructor, the destructor, `setPlateWidthPercentage`, `connect`,
`signalPlateDetected`, `invoke` and `Serialize`.  Exactly one public member
function is not a generic hook, the setter `setPlateWidthPercentage`, which
takes one `float` and returns `void`; exactly one public member is a data
member, the signal `signalPlateDetected` of type
`sigc::signal<void, PlateDetected>`; every other public member is a
constructor, the destructor, or one of the hooks `connect`, `invoke` and
`Serialize`. -/
theorem publicMembers_one_setter_one_signal :
    publicMembers.map (fun d => (d.kind, d.name)) =
      [ (DeclKind.constructor, "PlateDetectorFilterImpl"),
        (DeclKind.destructor, "~PlateDetectorFilterImpl"),
        (DeclKind.function, "setPlateWidthPercentage"),
        (DeclKind.function, "connect"),
        (DeclKind.dataMember, "signalPlateDetected"),
        (DeclKind.function, "invoke"),
        (DeclKind.function, "Serialize") ] ∧
    publicMembers.filter (fun d => d.kind == DeclKind.function && !d.isGenericHook)
      = [decl_setPlateWidthPercentage] ∧
    decl_setPlateWidthPercentage.params.map Prod.snd = [CType.float] ∧
    decl_setPlateWidthPercentage.type = CType.void ∧
    publicMembers.filter (fun d => d.kind == DeclKind.dataMember) = [decl_signalPlateDetected] ∧
    decl_signalPlateDetected.type = CType.sigcSignal CType.void (CType.named "PlateDetected") ∧
    publicMembers.filter (fun d => !d.isBoilerplate)
      = [decl_setPlateWidthPercentage, decl_signalPlateDetected] ∧
    (∀ d ∈ publicMembers,
      d = decl_setPlateWidthPercentage ∨ d = decl_signalPlateDetected ∨
      d.kind = DeclKind.constructor ∨ d.kind = DeclKind.destructor ∨
      (d.kind = DeclKind.function ∧
        (d.name = "connect" ∨ d.name = "invoke" ∨ d.name = "Serialize"))) := by
  decide

/-- C6: the functions the header declares are exactly the free function
`kurento::Serialize` and, for `PlateDetectorFilterImpl`, the constructor, the
destructor, `setPlateWidthPercentage`, `connect`, `invoke`, `Serialize`,
`postConstructor`, `busMessage` and the constructor of the nested class
`StaticConstructor`; none of them, and no other declaration of the header,
has a body. -/
theorem headerDeclarations_declaration_only :
    (headerDeclarations.filter Declaration.isFunction).map Declaration.qualifiedName =
      [ "kurento::Serialize",
        "kurento::module::platedetector::PlateDetectorFilterImpl::PlateDetectorFilterImpl",
        "kurento::module::platedetector::PlateDetectorFilterImpl::~PlateDetectorFilterImpl",
        "kurento::module::platedetector::PlateDetectorFilterImpl::setPlateWidthPercentage",
        "kurento::module::platedetector::PlateDetectorFilterImpl::connect",
        "kurento::module::platedetector::PlateDetectorFilterImpl::invoke",
        "kurento::module::platedetector::PlateDetectorFilterImpl::Serialize",
        "kurento::module::platedetector::PlateDetectorFilterImpl::postConstructor",
        "kurento::module::platedetector::PlateDetectorFilterImpl::busMessage",
        "kurento::module::platedetector::PlateDetectorFilterImpl::StaticConstructor::StaticConstructor" ] ∧
    (∀ d ∈ headerDeclarations, d.isFunction = true → d.body = Option.none) ∧
    (∀ d ∈ headerDeclarations, d.body = Option.none) := by
  decide

/-- C7: before any constructor body runs, the `plateDetector` handle is
`NULL`, because line 71 has the default member initialiser `= NULL`, so the
NULL-or-valid predicate holds of it in every world; `bus_handler_id` has no
default member initialiser (line 70), so its initial value can be any
`gulong`, and in every world with fewer than `gulongRange - 1` connected bus
handlers some initial state breaks the NULL-or-valid predicate for it. -/
theorem initialState_null_only_for_plateDetector :
    decl_plateDetector.initialiser = some Initialiser.null ∧
    decl_bus_handler_id.initialiser = Option.none ∧
    (∀ (indeterminate : String → Nat) (w : World),
      (initialState indeterminate).plateDetector = NULL ∧
      plateDetectorNullOrValid w (initialState indeterminate)) ∧
    (∀ v, v < gulongRange →
      ∃ indeterminate, (initialState indeterminate).bus_handler_id = v) ∧
    (∀ w : World, w.busHandlers.length + 1 < gulongRange →
      ∃ indeterminate, ¬ busHandlerNullOrValid w (initialState indeterminate)) ∧
    (∃ indeterminate, ¬ busHandlerNullOrValid exampleSystem.world (initialState indeterminate)) := by
  refine ⟨rfl, rfl, ?_, ?_, ?_, ?_⟩
  · intro indeterminate w
    exact ⟨rfl, Or.inl rfl⟩
  · intro v hv
    refine ⟨fun _ => v, ?_⟩
    show v % gulongRange = v
    exact Nat.mod_eq_of_lt hv
  · intro w hw
    obtain ⟨v, hv, hv0, hvmem⟩ := exists_gulong_not_mem w.busHandlers hw
    refine ⟨fun _ => v, ?_⟩
    have hval : (initialState (fun _ => v)).bus_handler_id = v := by
      show v % gulongRange = v
      exact Nat.mod_eq_of_lt hv
    intro hok
    unfold busHandlerNullOrValid at hok
    rw [hval] at hok
    rcases hok with h0 | hmem
    · exact hv0 h0
    · exact hvmem hmem
  · refine ⟨fun _ => 1, ?_⟩
    decide

end kurento.module.platedetector
